import Mathlib

/-!
Shallow embedding of `scripts/mcp-web-test.py`.

The script defines a page-descriptor list `TEST_PAGES`, a base URL taken
from the environment (`BASE_URL`), a result class `WebTestResult` with a
`to_dict` serializer, an async page tester `test_page` driven by three
externally injected browser callables, and `run_all_tests`, which builds a
JSON test plan from `TEST_PAGES` and updates the global `TEST_RESULTS`
dictionary.

Modelling conventions:
  * The environment is a function `String → Option String`; `os.getenv`
    with a default becomes `Option.getD`.
  * Each injected awaited callable is modelled by its outcome, an
    `Except String α` whose `error` carries the exception message `str(e)`.
  * A snapshot value is either a string or a non-string JSON value; the
    non-string case is represented by its `json.dumps` serialization
    (`json.dumps` is Python stdlib, external to this repository).
  * `datetime` strings and the elapsed duration are parameters
    (`now_str`, `start_iso`, `end_iso`, `created_at`, `elapsed`).
  * `test_page` additionally returns the trace of awaited calls it made,
    in order, so that the call sequence is part of the model; filesystem
    side effects (`os.makedirs`, `print`, writing the plan file) are not
    events of interest and are not modelled as fallible.
  * Python `str.lower` is `lowerStr` (ASCII case mapping, identity on
    Hangul, like Python there), `str.replace(' ', '-')` is `replaceChar`,
    and the `in` substring operator is `strContains`.
-/

/-- A JSON value, as produced by `json.dump` for the data this script
serializes (strings, booleans, null, numbers, arrays, objects). -/
inductive JsonValue where
  | null : JsonValue
  | bool : Bool → JsonValue
  | num : Int → JsonValue
  | str : String → JsonValue
  | arr : List JsonValue → JsonValue
  | obj : List (String × JsonValue) → JsonValue

/-- The keys of a JSON object (empty for non-objects). -/
def jsonKeys : JsonValue → List String
  | JsonValue.obj kvs => kvs.map Prod.fst
  | _ => []

/-- The key-value pairs of a JSON object (empty for non-objects). -/
def objFields : JsonValue → List (String × JsonValue)
  | JsonValue.obj kvs => kvs
  | _ => []

/-- An `Option String` serialized as JSON: `None` becomes `null`. -/
def optStrJson : Option String → JsonValue
  | none => JsonValue.null
  | some s => JsonValue.str s

/-- One entry of `TEST_PAGES`: a dict with keys `name`, `url` and
(optionally) `expected_elements`. -/
structure PageConfig where
  name : String
  url : String
  expected_elements : Option (List String)
deriving DecidableEq

/-- One entry of the `results` list built by `run_all_tests`:
a dict with keys `name`, `url`, `expected_elements`. -/
structure PlanEntry where
  name : String
  url : String
  expected_elements : List String
deriving DecidableEq

/-- The global `TEST_RESULTS` dictionary: fixed keys `start_time`,
`end_time`, `total_tests`, `passed`, `failed`, `results`. -/
structure TestResultsState where
  start_time : Option String
  end_time : Option String
  total_tests : Nat
  passed : Nat
  failed : Nat
  results : List JsonValue

/-- The initial value of the global `TEST_RESULTS` dictionary. -/
def TEST_RESULTS : TestResultsState :=
  { start_time := none
    end_time := none
    total_tests := 0
    passed := 0
    failed := 0
    results := [] }

/-- `BASE_URL = os.getenv("TEST_BASE_URL", "http://localhost:5000")`,
with the process environment passed explicitly. -/
def BASE_URL (env : String → Option String) : String :=
  (env "TEST_BASE_URL").getD "http://localhost:5000"

/-- The `WebTestResult` class: its instance attributes. -/
structure WebTestResult where
  page_name : String
  url : String
  passed : Bool
  error : Option String
  screenshot_path : Option String
  duration : Int
  checks : List String

/-- `WebTestResult.__init__(page_name, url)`. -/
def WebTestResult.init (page_name url : String) : WebTestResult :=
  { page_name := page_name
    url := url
    passed := false
    error := none
    screenshot_path := none
    duration := 0
    checks := [] }

/-- `WebTestResult.to_dict`: the serialized result dictionary, keys in
source order. -/
def WebTestResult.to_dict (r : WebTestResult) : List (String × JsonValue) :=
  [("page_name", JsonValue.str r.page_name),
   ("url", JsonValue.str r.url),
   ("passed", JsonValue.bool r.passed),
   ("error", optStrJson r.error),
   ("screenshot_path", optStrJson r.screenshot_path),
   ("duration", JsonValue.num r.duration),
   ("checks", JsonValue.arr (r.checks.map JsonValue.str))]

/-- Python `str.lower()`: ASCII case mapping on each character (identity on
Hangul and other non-cased characters, as in Python). -/
def lowerStr (s : String) : String :=
  String.mk (s.data.map Char.toLower)

/-- Python `str.replace(a, b)` for single characters, as used by
`page_name.replace(' ', '-')`. -/
def replaceChar (s : String) (a b : Char) : String :=
  String.mk (s.data.map (fun c => if c == a then b else c))

/-- Python's `sub in hay` on character lists: `sub` occurs contiguously. -/
def infixCheck (sub : List Char) : List Char → Bool
  | [] => sub.isEmpty
  | c :: rest => sub.isPrefixOf (c :: rest) || infixCheck sub rest

/-- Python's substring operator `sub in hay` on strings. -/
def strContains (hay sub : String) : Bool :=
  infixCheck sub.data hay.data

/-- The result of `browser_snapshot()`: a string, or any non-string JSON
value represented by its `json.dumps` serialization (stdlib, external). -/
inductive Snapshot where
  | str : String → Snapshot
  | nonStr : String → Snapshot

/-- `page_text = snapshot.lower() if isinstance(snapshot, str) else
json.dumps(snapshot).lower()`. -/
def pageText : Snapshot → String
  | Snapshot.str s => lowerStr s
  | Snapshot.nonStr dumped => lowerStr dumped

/-- The check string appended when an expected element is found. -/
def foundCheck (element : String) : String :=
  "✓ '" ++ element ++ "' 요소 발견"

/-- The check string appended when an expected element is not found. -/
def missingCheck (element : String) : String :=
  "✗ '" ++ element ++ "' 요소를 찾을 수 없음"

/-- The per-element body of the check loop in `test_page`. -/
def checkElement (page_text element : String) : String :=
  let element_lower := lowerStr element
  if strContains page_text element_lower then foundCheck element
  else missingCheck element

/-- `screenshot_filename = f"test-{page_name.replace(' ', '-').lower()}-{now}.png"`. -/
def screenshotFilename (page_name now_str : String) : String :=
  "test-" ++ lowerStr (replaceChar page_name ' ' '-') ++ "-" ++ now_str ++ ".png"

/-- One awaited call performed by `test_page`. -/
inductive AwaitEvent where
  | navigate : String → AwaitEvent
  | sleep : Nat → AwaitEvent
  | snapshotCall : AwaitEvent
  | screenshotCall : String → AwaitEvent
deriving DecidableEq

/-- The trace of awaited calls of a fully successful `test_page` run. -/
def fullTrace (url page_name now_str : String) : List AwaitEvent :=
  [AwaitEvent.navigate url,
   AwaitEvent.sleep 2,
   AwaitEvent.snapshotCall,
   AwaitEvent.screenshotCall (screenshotFilename page_name now_str)]

/-- The first exception message raised among the three injected calls, in
the order `test_page` awaits them (`asyncio.sleep` does not raise). -/
def firstError (browser_navigate : Except String Unit)
    (browser_snapshot : Except String Snapshot)
    (browser_take_screenshot : Except String Unit) : Option String :=
  match browser_navigate with
  | Except.error e => some e
  | Except.ok _ =>
    match browser_snapshot with
    | Except.error e => some e
    | Except.ok _ =>
      match browser_take_screenshot with
      | Except.error e => some e
      | Except.ok _ => none

/-- `test_page`: each injected awaited callable is modelled by its outcome;
the returned pair is the `WebTestResult` and the trace of awaited calls, in
order, truncated at the first call that raises.  The `try` block covers all
awaited calls; the `except` branch records `passed = False` and
`error = str(e)`; the `finally` branch always sets `duration`. -/
def test_page (browser_navigate : Except String Unit)
    (browser_snapshot : Except String Snapshot)
    (browser_take_screenshot : Except String Unit)
    (page_name url : String)
    (expected_elements : Option (List String))
    (now_str : String) (elapsed : Int) : WebTestResult × List AwaitEvent :=
  let result := WebTestResult.init page_name url
  let (result, events) :=
    match browser_navigate with
    | Except.error e =>
      ({ result with passed := false, error := some e },
       [AwaitEvent.navigate url])
    | Except.ok _ =>
      match browser_snapshot with
      | Except.error e =>
        ({ result with passed := false, error := some e },
         [AwaitEvent.navigate url, AwaitEvent.sleep 2,
          AwaitEvent.snapshotCall])
      | Except.ok snapshot =>
        let checks :=
          match expected_elements with
          | none => []
          | some es =>
            if es.isEmpty then []
            else
              let page_text := pageText snapshot
              es.map (fun element => checkElement page_text element)
        let screenshot_filename := screenshotFilename page_name now_str
        let screenshot_path := "tests/e2e/screenshots/" ++ screenshot_filename
        match browser_take_screenshot with
        | Except.error e =>
          ({ result with checks := checks, passed := false, error := some e },
           [AwaitEvent.navigate url, AwaitEvent.sleep 2,
            AwaitEvent.snapshotCall,
            AwaitEvent.screenshotCall screenshot_filename])
        | Except.ok _ =>
          ({ result with checks := checks,
                         screenshot_path := some screenshot_path,
                         passed := true },
           [AwaitEvent.navigate url, AwaitEvent.sleep 2,
            AwaitEvent.snapshotCall,
            AwaitEvent.screenshotCall screenshot_filename])
  ({ result with duration := elapsed }, events)

/-- The `TEST_PAGES` list, verbatim from the source. -/
def TEST_PAGES : List PageConfig :=
  [⟨"로그인", "/login", some ["로그인", "아이디", "비밀번호"]⟩,
   ⟨"메인 대시보드", "/", some ["대시보드", "태창 ERP"]⟩,
   ⟨"품목 관리", "/master/items", some ["품목", "관리"]⟩,
   ⟨"거래처 관리", "/master/companies", some ["거래처", "관리"]⟩,
   ⟨"BOM 관리", "/master/bom", some ["BOM", "관리"]⟩,
   ⟨"월별 단가 관리", "/price-management", some ["단가", "관리"]⟩,
   ⟨"입고 관리", "/inventory?tab=receiving", some ["입고", "관리"]⟩,
   ⟨"생산 관리", "/inventory?tab=production", some ["생산", "관리"]⟩,
   ⟨"출고 관리", "/inventory?tab=shipping", some ["출고", "관리"]⟩,
   ⟨"재고 현황", "/stock", some ["재고", "현황"]⟩,
   ⟨"재고 이력", "/stock/history", some ["재고", "이력"]⟩,
   ⟨"재고 보고서", "/stock/reports", some ["재고", "보고서"]⟩,
   ⟨"공정 작업", "/process", some ["공정", "작업"]⟩,
   ⟨"추적성 조회", "/traceability", some ["추적성", "조회"]⟩,
   ⟨"매출 관리", "/sales", some ["매출", "관리"]⟩,
   ⟨"매입 관리", "/purchases", some ["매입", "관리"]⟩,
   ⟨"수금 관리", "/collections", some ["수금", "관리"]⟩,
   ⟨"지급 관리", "/payments", some ["지급", "관리"]⟩,
   ⟨"회계 요약", "/accounting/summary", some ["회계", "요약"]⟩,
   ⟨"계약 관리", "/contracts", some ["계약", "관리"]⟩]

/-- The JSON object built for one plan entry inside the `json.dump` call of
`run_all_tests`. -/
def planEntryJson (e : PlanEntry) : JsonValue :=
  JsonValue.obj
    [("name", JsonValue.str e.name),
     ("url", JsonValue.str e.url),
     ("expected_elements", JsonValue.arr (e.expected_elements.map JsonValue.str))]

/-- The value returned by `run_all_tests`: the final `TEST_RESULTS` state,
the `results` list it returns, and the JSON object dumped to
`tests/e2e/mcp-test-plan.json`. -/
structure RunOutput where
  state : TestResultsState
  results : List PlanEntry
  plan : JsonValue

/-- `run_all_tests`: sets `TEST_RESULTS["start_time"]` and
`TEST_RESULTS["total_tests"]`, builds one plan entry per page of
`TEST_PAGES` (`url = f"{BASE_URL}{page_config['url']}"`,
`expected_elements = page_config.get("expected_elements", [])`), dumps the
plan object with keys `base_url`, `test_pages`, `created_at`, sets
`TEST_RESULTS["end_time"]`, and returns `results`.  The datetime strings
are parameters; `print` and file writing have no modelled effect beyond
the produced `plan` value. -/
def run_all_tests (env : String → Option String)
    (start_iso end_iso created_at : String)
    (st : TestResultsState) : RunOutput :=
  let st := { st with start_time := some start_iso }
  let st := { st with total_tests := TEST_PAGES.length }
  let results := TEST_PAGES.map (fun page_config =>
    { name := page_config.name
      url := BASE_URL env ++ page_config.url
      expected_elements := page_config.expected_elements.getD []
      : PlanEntry })
  let plan := JsonValue.obj
    [("base_url", JsonValue.str (BASE_URL env)),
     ("test_pages", JsonValue.arr (results.map planEntryJson)),
     ("created_at", JsonValue.str created_at)]
  let st := { st with end_time := some end_iso }
  { state := st, results := results, plan := plan }

/-- C3: the base URL is selected by the `TEST_BASE_URL` environment
variable and defaults to `http://localhost:5000` when it is unset. -/
theorem BASE_URL_env_selection :
    (∀ env v, env "TEST_BASE_URL" = some v → BASE_URL env = v) ∧
    (∀ env, env "TEST_BASE_URL" = none →
      BASE_URL env = "http://localhost:5000") :=
  ⟨fun env v h => by simp [BASE_URL, h],
   fun env h => by simp [BASE_URL, h]⟩

/-- Witness for C3 at two concrete environments: one setting the variable,
one leaving it unset. -/
theorem BASE_URL_env_selection_witness :
    BASE_URL (fun _ => some "http://example.test") = "http://example.test" ∧
    BASE_URL (fun _ => none) = "http://localhost:5000" :=
  ⟨BASE_URL_env_selection.1 (fun _ => some "http://example.test")
     "http://example.test" rfl,
   BASE_URL_env_selection.2 (fun _ => none) rfl⟩

/-- C6: no two entries of `TEST_PAGES` share the same name. -/
theorem TEST_PAGES_names_nodup :
    (TEST_PAGES.map PageConfig.name).Nodup := by decide

/-- C8: the dictionary produced by `WebTestResult.to_dict` carries the
pass/fail flag, the optional error string, the elapsed duration, the
screenshot path and the list of per-element check strings, each under its
documented key. -/
theorem to_dict_fields (r : WebTestResult) :
    r.to_dict.lookup "passed" = some (JsonValue.bool r.passed) ∧
    r.to_dict.lookup "error" = some (optStrJson r.error) ∧
    r.to_dict.lookup "duration" = some (JsonValue.num r.duration) ∧
    r.to_dict.lookup "screenshot_path" = some (optStrJson r.screenshot_path) ∧
    r.to_dict.lookup "checks" =
      some (JsonValue.arr (r.checks.map JsonValue.str)) :=
  ⟨rfl, rfl, rfl, rfl, rfl⟩

/-- C4: the dumped test-plan object has exactly the three top-level keys
`base_url`, `test_pages` and `created_at`; `base_url` holds the base URL,
`created_at` the creation timestamp, and `test_pages` the array of entry
objects, each of which has exactly the keys `name`, `url` and
`expected_elements`. -/
theorem plan_json_shape (env : String → Option String)
    (start_iso end_iso created_at : String) (st : TestResultsState) :
    jsonKeys (run_all_tests env start_iso end_iso created_at st).plan =
      ["base_url", "test_pages", "created_at"] ∧
    (objFields (run_all_tests env start_iso end_iso created_at st).plan).lookup
      "base_url" = some (JsonValue.str (BASE_URL env)) ∧
    (objFields (run_all_tests env start_iso end_iso created_at st).plan).lookup
      "test_pages" = some (JsonValue.arr
        ((run_all_tests env start_iso end_iso created_at st).results.map
          planEntryJson)) ∧
    (objFields (run_all_tests env start_iso end_iso created_at st).plan).lookup
      "created_at" = some (JsonValue.str created_at) ∧
    ∀ e : PlanEntry,
      jsonKeys (planEntryJson e) = ["name", "url", "expected_elements"] :=
  ⟨rfl, rfl, rfl, rfl, fun _ => rfl⟩

/-- C7 counterexample: `run_all_tests` does write the global `TEST_RESULTS`
dictionary, so after a run it no longer holds its initial value. -/
theorem TEST_RESULTS_written :
    (run_all_tests (fun _ => none) "t0" "t1" "c" TEST_RESULTS).state ≠
      TEST_RESULTS :=
  fun h => absurd (congrArg TestResultsState.total_tests h) (by decide)

/-- C7 amended: `TEST_RESULTS` is never read — the plan and the results
list do not depend on it — and `run_all_tests` writes only its
`start_time`, `total_tests` and `end_time` fields, leaving `passed`,
`failed` and `results` at their incoming values. -/
theorem TEST_RESULTS_effect (env : String → Option String)
    (start_iso end_iso created_at : String) (st st2 : TestResultsState) :
    (run_all_tests env start_iso end_iso created_at st).results =
      (run_all_tests env start_iso end_iso created_at st2).results ∧
    (run_all_tests env start_iso end_iso created_at st).plan =
      (run_all_tests env start_iso end_iso created_at st2).plan ∧
    (run_all_tests env start_iso end_iso created_at st).state.passed =
      st.passed ∧
    (run_all_tests env start_iso end_iso created_at st).state.failed =
      st.failed ∧
    (run_all_tests env start_iso end_iso created_at st).state.results =
      st.results ∧
    (run_all_tests env start_iso end_iso created_at st).state.start_time =
      some start_iso ∧
    (run_all_tests env start_iso end_iso created_at st).state.total_tests =
      TEST_PAGES.length ∧
    (run_all_tests env start_iso end_iso created_at st).state.end_time =
      some end_iso :=
  ⟨rfl, rfl, rfl, rfl, rfl, rfl, rfl, rfl⟩

/-- The found-check string and the missing-check string for the same
element are always different (they start with different marks). -/
theorem foundCheck_ne_missingCheck (element : String) :
    foundCheck element ≠ missingCheck element := by
  intro h
  have h2 : ('✓' : Char) = '✗' := congrArg (fun s => s.data.headD 'A') h
  exact absurd h2 (by decide)

/-- C1: for every configured page, the plan built by `run_all_tests`
contains exactly one entry bearing the page's name, and that entry's url is
the base URL concatenated with the page's path while its
`expected_elements` is the configured list (empty when unspecified). -/
theorem run_all_tests_plan_entries (env : String → Option String)
    (start_iso end_iso created_at : String) (st : TestResultsState)
    (p : PageConfig) (hp : p ∈ TEST_PAGES) :
    ((run_all_tests env start_iso end_iso created_at st).results).filter
        (fun e => e.name == p.name) =
      [{ name := p.name, url := BASE_URL env ++ p.url,
         expected_elements := p.expected_elements.getD [] }] := by
  fin_cases hp <;> rfl

/-- Witness for C1 at the first configured page, with the variable unset. -/
theorem run_all_tests_plan_entries_witness :
    (⟨"로그인", "/login", some ["로그인", "아이디", "비밀번호"]⟩ : PageConfig)
        ∈ TEST_PAGES ∧
    ((run_all_tests (fun _ => none) "t0" "t1" "c" TEST_RESULTS).results).filter
        (fun e => e.name == "로그인") =
      [{ name := "로그인", url := "http://localhost:5000/login",
         expected_elements := ["로그인", "아이디", "비밀번호"] }] :=
  ⟨by decide,
   run_all_tests_plan_entries (fun _ => none) "t0" "t1" "c" TEST_RESULTS
     ⟨"로그인", "/login", some ["로그인", "아이디", "비밀번호"]⟩ (by decide)⟩

/-- C2: whenever one of the awaited calls of `test_page` raises, the
exception is caught: the returned result has `passed = False` and `error`
equal to the raised message, and `test_page` still returns a result. -/
theorem test_page_catches_exceptions
    (browser_navigate : Except String Unit)
    (browser_snapshot : Except String Snapshot)
    (browser_take_screenshot : Except String Unit)
    (page_name url : String) (expected_elements : Option (List String))
    (now_str : String) (elapsed : Int) (e : String)
    (h : firstError browser_navigate browser_snapshot browser_take_screenshot
        = some e) :
    (test_page browser_navigate browser_snapshot browser_take_screenshot
        page_name url expected_elements now_str elapsed).1.passed = false ∧
    (test_page browser_navigate browser_snapshot browser_take_screenshot
        page_name url expected_elements now_str elapsed).1.error = some e := by
  cases browser_navigate with
  | error a =>
    simp [firstError] at h
    subst h
    exact ⟨rfl, rfl⟩
  | ok u =>
    cases browser_snapshot with
    | error a =>
      simp [firstError] at h
      subst h
      exact ⟨rfl, rfl⟩
    | ok s =>
      cases browser_take_screenshot with
      | error a =>
        simp [firstError] at h
        subst h
        exact ⟨rfl, rfl⟩
      | ok v => simp [firstError] at h

/-- Witness for C2: a navigation failure with message `boom`. -/
theorem test_page_catches_exceptions_witness :
    (test_page (Except.error "boom") (Except.ok (Snapshot.str "x"))
        (Except.ok ()) "p" "u" none "ts" 0).1.passed = false ∧
    (test_page (Except.error "boom") (Except.ok (Snapshot.str "x"))
        (Except.ok ()) "p" "u" none "ts" 0).1.error = some "boom" :=
  test_page_catches_exceptions (Except.error "boom")
    (Except.ok (Snapshot.str "x")) (Except.ok ()) "p" "u" none "ts" 0
    "boom" rfl

/-- C5: the awaited calls of `test_page` are always an initial segment of
the fixed sequence navigate, sleep, snapshot, screenshot — no other awaited
call ever occurs — and when all three injected calls succeed the trace is
exactly that four-call sequence. -/
theorem test_page_await_sequence
    (browser_navigate : Except String Unit)
    (browser_snapshot : Except String Snapshot)
    (browser_take_screenshot : Except String Unit)
    (page_name url : String) (expected_elements : Option (List String))
    (now_str : String) (elapsed : Int) :
    (∃ k, (test_page browser_navigate browser_snapshot
        browser_take_screenshot page_name url expected_elements now_str
        elapsed).2 = (fullTrace url page_name now_str).take k) ∧
    (browser_navigate = Except.ok () →
      ∀ s, browser_snapshot = Except.ok s →
        browser_take_screenshot = Except.ok () →
          (test_page browser_navigate browser_snapshot
              browser_take_screenshot page_name url expected_elements
              now_str elapsed).2 = fullTrace url page_name now_str) := by
  constructor
  · cases browser_navigate with
    | error a => exact ⟨1, rfl⟩
    | ok u =>
      cases browser_snapshot with
      | error a => exact ⟨3, rfl⟩
      | ok s =>
        cases browser_take_screenshot with
        | error a => exact ⟨4, rfl⟩
        | ok v => exact ⟨4, rfl⟩
  · intro hnav s hs hshot
    subst hnav
    subst hs
    subst hshot
    rfl

/-- Witness for C5: with all calls succeeding the trace is the full
four-call sequence. -/
theorem test_page_await_sequence_witness :
    (test_page (Except.ok ()) (Except.ok (Snapshot.str "x")) (Except.ok ())
        "p" "u" none "ts" 0).2 = fullTrace "u" "p" "ts" :=
  (test_page_await_sequence (Except.ok ()) (Except.ok (Snapshot.str "x"))
      (Except.ok ()) "p" "u" none "ts" 0).2 rfl (Snapshot.str "x") rfl rfl

/-- C9: when navigation and snapshot succeed and the expected-element list
is non-empty, the result's checks are exactly one per expected element, in
the same order, and an element's check is the found string precisely when
the lowercased element occurs as a substring of the lowercased snapshot
text (the snapshot being its JSON serialization when not a string). -/
theorem test_page_element_checks
    (browser_navigate : Except String Unit)
    (browser_take_screenshot : Except String Unit) (s : Snapshot)
    (page_name url now_str : String) (elapsed : Int) (es : List String)
    (hnav : browser_navigate = Except.ok ()) (hes : es ≠ []) :
    (test_page browser_navigate (Except.ok s) browser_take_screenshot
        page_name url (some es) now_str elapsed).1.checks =
      es.map (fun element => checkElement (pageText s) element) ∧
    ∀ element, (checkElement (pageText s) element = foundCheck element ↔
      strContains (pageText s) (lowerStr element) = true) := by
  subst hnav
  constructor
  · cases es with
    | nil => exact absurd rfl hes
    | cons a l =>
      cases browser_take_screenshot with
      | error e => rfl
      | ok v => rfl
  · intro element
    constructor
    · intro hc
      rcases Bool.eq_false_or_eq_true
          (strContains (pageText s) (lowerStr element)) with hb | hb
      · exact hb
      · exfalso
        rw [checkElement] at hc
        simp only [hb, Bool.false_eq_true, if_false] at hc
        exact foundCheck_ne_missingCheck element hc.symm
    · intro hb
      rw [checkElement]
      simp [hb]

/-- Witness for C9: one element present in the snapshot and one absent. -/
theorem test_page_element_checks_witness :
    (test_page (Except.ok ()) (Except.ok (Snapshot.str "Hello 로그인"))
        (Except.ok ()) "p" "u" (some ["로그인", "absent"]) "ts" 0).1.checks =
      [foundCheck "로그인", missingCheck "absent"] ∧
    checkElement (pageText (Snapshot.str "Hello 로그인")) "로그인" =
      foundCheck "로그인" :=
  ⟨(test_page_element_checks (Except.ok ()) (Except.ok ())
      (Snapshot.str "Hello 로그인") "p" "u" "ts" 0 ["로그인", "absent"]
      rfl (by decide)).1.trans (by decide),
   ((test_page_element_checks (Except.ok ()) (Except.ok ())
      (Snapshot.str "Hello 로그인") "p" "u" "ts" 0 ["로그인", "absent"]
      rfl (by decide)).2 "로그인").mpr (by decide)⟩

/-- C10: when all awaited calls succeed, the page test passes with no
error, even if some expected elements were not found: failed substring
checks are recorded in `checks` but never fail the page test. -/
theorem test_page_passes
    (browser_navigate : Except String Unit)
    (browser_take_screenshot : Except String Unit) (s : Snapshot)
    (page_name url : String) (expected_elements : Option (List String))
    (now_str : String) (elapsed : Int)
    (hnav : browser_navigate = Except.ok ())
    (hshot : browser_take_screenshot = Except.ok ()) :
    (test_page browser_navigate (Except.ok s) browser_take_screenshot
        page_name url expected_elements now_str elapsed).1.passed = true ∧
    (test_page browser_navigate (Except.ok s) browser_take_screenshot
        page_name url expected_elements now_str elapsed).1.error = none := by
  subst hnav
  subst hshot
  exact ⟨rfl, rfl⟩

/-- Witness for C10: all calls succeed while the only expected element is
absent from the snapshot; the test still passes with no error. -/
theorem test_page_passes_witness :
    (test_page (Except.ok ()) (Except.ok (Snapshot.str "hello"))
        (Except.ok ()) "p" "u" (some ["absent"]) "ts" 0).1.passed = true ∧
    (test_page (Except.ok ()) (Except.ok (Snapshot.str "hello"))
        (Except.ok ()) "p" "u" (some ["absent"]) "ts" 0).1.error = none ∧
    (test_page (Except.ok ()) (Except.ok (Snapshot.str "hello"))
        (Except.ok ()) "p" "u" (some ["absent"]) "ts" 0).1.checks =
      [missingCheck "absent"] :=
  ⟨(test_page_passes (Except.ok ()) (Except.ok ()) (Snapshot.str "hello")
      "p" "u" (some ["absent"]) "ts" 0 rfl rfl).1,
   (test_page_passes (Except.ok ()) (Except.ok ()) (Snapshot.str "hello")
      "p" "u" (some ["absent"]) "ts" 0 rfl rfl).2,
   by decide⟩
